import Mathlib

/-!
Verification development for the `vercel_textract` document-OCR service
(`src/api/index.py` and `src/api/llm_service.py`).

Strings of the Python source are modelled as `List Char` (named `Str`),
machine booleans as `Bool`, timestamps as `Int` measured in days (the only
time arithmetic in the source is `datetime.timedelta(days=30)` comparisons),
and fallible upstream calls (S3, Textract, Bedrock, the database) as
`Except`/`Bool` parameters injected at the call site.
-/

abbrev Str := List Char

/-- A Textract result block: the source reads `block['BlockType']` and
`block['Text']`. -/
structure Block where
  blockType : Str
  text : Str
deriving DecidableEq

/-- One page of a `get_document_text_detection` response: the source reads
`response['Blocks']` and `response.get('NextToken')`. -/
structure Page where
  blocks : List Block
  nextToken : Option Str
deriving DecidableEq

/-- Python truthiness of the `next_token` value used by the
`while next_token:` loop: `None` and the empty string are falsy. -/
def pyTruthy : Option Str → Bool
  | none => false
  | some [] => false
  | some (_ :: _) => true

/-- The `while next_token:` loop of `get_all_textract_blocks`
(src/api/index.py lines 146-149).  `fetch t` models
`textract.get_document_text_detection(JobId=job_id, NextToken=t)`.
The accumulator mirrors `blocks.extend(response['Blocks'])`; alongside the
blocks we record the list of tokens actually fetched, in order, so that
"the first page is never re-fetched" is observable.  `fuel` bounds the
number of iterations; `none` models non-termination within the bound. -/
def get_blocks_loop (fetch : Str → Page) :
    Option Str → List Block → List Str → Nat → Option (List Block × List Str)
  | nt, blocks, fetched, fuel =>
    match nt with
    | none => some (blocks, fetched)
    | some t =>
      match t with
      | [] => some (blocks, fetched)
      | _ :: _ =>
        match fuel with
        | 0 => none
        | Nat.succ fuel =>
          let r := fetch t
          get_blocks_loop fetch r.nextToken (blocks ++ r.blocks) (fetched ++ [t]) fuel

/-- `get_all_textract_blocks(job_id, initial_response)`
(src/api/index.py lines 142-150): starts from the already-fetched first
page's `Blocks` and its `NextToken` and then runs the pagination loop. -/
def get_all_textract_blocks (fetch : Str → Page) (initial : Page) (fuel : Nat) :
    Option (List Block × List Str) :=
  get_blocks_loop fetch initial.nextToken initial.blocks [] fuel

/-- `isChainB fetch nt ps = true` says: starting from cursor `nt`, the
upstream serves exactly the pages `ps` in order — each link is a truthy
(non-empty, present) token, `fetch` maps it to the next page, and the last
page's cursor is absent or empty. -/
def isChainB (fetch : Str → Page) : Option Str → List Page → Bool
  | nt, [] => !(pyTruthy nt)
  | nt, p :: ps =>
    match nt with
    | none => false
    | some t => decide (t ≠ []) && decide (fetch t = p) && isChainB fetch p.nextToken ps

/-- The cursor tokens of a chain, in fetch order. -/
def chainTokens : Option Str → List Page → List Str
  | _, [] => []
  | nt, _p :: ps => nt.getD [] :: chainTokens _p.nextToken ps

/-- Quoting rule of Python's `csv.writer` default dialect (QUOTE_MINIMAL):
a field is quoted iff it contains the delimiter, the quote char, or a
line-terminator char; quotes inside are doubled. -/
def escapeQuotes : Str → Str
  | [] => []
  | c :: cs => if c = '"' then '"' :: '"' :: escapeQuotes cs else c :: escapeQuotes cs

def csvField (s : Str) : Str :=
  if s.any (fun c => decide (c = ',' ∨ c = '"' ∨ c = '\r' ∨ c = '\n')) then
    '"' :: (escapeQuotes s ++ [ '"' ])
  else s

/-- One `writer.writerow([s])` call: a single field followed by the default
`\r\n` line terminator. -/
def csvRow (s : Str) : Str := csvField s ++ [ '\r', '\n' ]

/-- The string built by `create_and_upload_csv` (src/api/index.py lines
154-160): header row `DetectedText`, then one row per block of
`BlockType == 'LINE'`, in input order. -/
def create_csv_string (blocks : List Block) : Str :=
  blocks.foldl
    (fun acc b => if b.blockType = "LINE".data then acc ++ csvRow b.text else acc)
    (csvRow "DetectedText".data)

/-- UTF-8 encoding of a Unicode code point (`csv_string.encode('utf-8')`). -/
def utf8EncodeNat (n : Nat) : List Nat :=
  if n < 128 then [n]
  else if n < 2048 then [192 + n / 64, 128 + n % 64]
  else if n < 65536 then [224 + n / 4096, 128 + (n / 64) % 64, 128 + n % 64]
  else [240 + n / 262144, 128 + (n / 4096) % 64, 128 + (n / 64) % 64, 128 + n % 64]

def utf8Encode (s : Str) : List Nat := (s.map (fun c => utf8EncodeNat c.toNat)).flatten

/-- The byte content uploaded by `create_and_upload_csv`
(src/api/index.py lines 152-166). -/
def create_and_upload_csv (blocks : List Block) : List Nat :=
  utf8Encode (create_csv_string blocks)

/-- The spec's description of `synthesize_artifact`: filter to line-level
units, project to text, serialize as header row plus one row per line,
UTF-8 encoded.  Stated from the spec's words, to be compared with
`create_and_upload_csv`. -/
def synthesize_artifact_spec (blocks : List Block) : List Nat :=
  utf8Encode
    (csvRow "DetectedText".data ++
      ((blocks.filter (fun b => b.blockType = "LINE".data)).map (fun b => csvRow b.text)).flatten)

/-- JSON values, for modelling Python's `json.loads` on the fragment the
service exchanges (objects with string keys, strings, integers, booleans,
null, arrays).  Python dicts are modelled as key-unique association lists
in insertion order. -/
inductive JValue where
  | null
  | bool (b : Bool)
  | num (n : Int)
  | str (s : Str)
  | arr (xs : List JValue)
  | obj (kvs : List (Str × JValue))

/-- Python dict assignment `d[k] = v`: replace in place when the key exists
(keeping insertion order), append otherwise. -/
def setKey (kvs : List (Str × JValue)) (k : Str) (v : JValue) : List (Str × JValue) :=
  if kvs.any (fun kv => kv.1 = k) then
    kvs.map (fun kv => if kv.1 = k then (k, v) else kv)
  else kvs ++ [(k, v)]

/-- Python dict lookup `d[k]` (first — and, with `setKey`-built dicts,
only — entry for the key). -/
def dictFind (kvs : List (Str × JValue)) (k : Str) : Option JValue :=
  match kvs with
  | [] => none
  | (k0, v) :: rest => if k0 = k then some v else dictFind rest k

def skipWs : Str → Str
  | [] => []
  | c :: cs =>
    if c = ' ' ∨ c = '\t' ∨ c = '\n' ∨ c = '\r' then skipWs cs else c :: cs

def escChar (e : Char) : Option Char :=
  if e = '"' then some '"'
  else if e = '\\' then some '\\'
  else if e = '/' then some '/'
  else if e = 'n' then some '\n'
  else if e = 't' then some '\t'
  else if e = 'r' then some '\r'
  else if e = 'b' then some (Char.ofNat 8)
  else if e = 'f' then some (Char.ofNat 12)
  else none

/-- Parse a JSON string body (input starts after the opening quote);
returns the decoded content and the remainder after the closing quote.
`\uXXXX` escapes are outside the modelled fragment. -/
def parseJString : Str → Option (Str × Str)
  | [] => none
  | c :: cs =>
    if c = '"' then some ([], cs)
    else if c = '\\' then
      match cs with
      | [] => none
      | e :: rest =>
        match escChar e with
        | some d => (parseJString rest).map (fun pr => (d :: pr.1, pr.2))
        | none => none
    else (parseJString cs).map (fun pr => (c :: pr.1, pr.2))

def digitsToNat (ds : Str) : Nat := ds.foldl (fun a c => a * 10 + (c.toNat - 48)) 0

/-- Parse a JSON integer (floats are outside the modelled fragment). -/
def parseJNumber (s : Str) : Option (Int × Str) :=
  let neg : Bool := match s with
    | c :: _ => c = '-'
    | [] => false
  let s1 := if neg then s.tail else s
  let ds := s1.takeWhile Char.isDigit
  let rest := s1.dropWhile Char.isDigit
  if ds = [] then none
  else
    match rest with
    | c :: _ =>
      if c = '.' ∨ c = 'e' ∨ c = 'E' then none
      else some (if neg then -(digitsToNat ds : Int) else (digitsToNat ds : Int), rest)
    | [] => some (if neg then -(digitsToNat ds : Int) else (digitsToNat ds : Int), rest)

def lbrace : Char := '{'

def rbrace : Char := '}'

/-- Member loop of a JSON object (input starts after `{`, on the first
key); `pv` parses one value.  Duplicate keys follow dict semantics
(last wins) via `setKey`. -/
def parseMembersLoop (pv : Str → Option (JValue × Str)) :
    Nat → Str → List (Str × JValue) → Option (JValue × Str)
  | 0, _, _ => none
  | Nat.succ fuel, s, acc =>
    match skipWs s with
    | [] => none
    | c :: rest =>
      if c = '"' then
        match parseJString rest with
        | none => none
        | some (k, r1) =>
          match skipWs r1 with
          | [] => none
          | d :: r2 =>
            if d = ':' then
              match pv r2 with
              | none => none
              | some (v, r3) =>
                match skipWs r3 with
                | [] => none
                | e :: r4 =>
                  if e = ',' then parseMembersLoop pv fuel r4 (setKey acc k v)
                  else if e = rbrace then some (JValue.obj (setKey acc k v), r4)
                  else none
            else none
      else none

/-- Element loop of a JSON array (input starts after `[`, on the first
element). -/
def parseElemsLoop (pv : Str → Option (JValue × Str)) :
    Nat → Str → List JValue → Option (JValue × Str)
  | 0, _, _ => none
  | Nat.succ fuel, s, acc =>
    match pv s with
    | none => none
    | some (v, r1) =>
      match skipWs r1 with
      | [] => none
      | e :: r2 =>
        if e = ',' then parseElemsLoop pv fuel r2 (acc ++ [v])
        else if e = ']' then some (JValue.arr (acc ++ [v]), r2)
        else none

/-- Parse one JSON value; `fuel` bounds the nesting depth. -/
def parseValue : Nat → Str → Option (JValue × Str)
  | 0, _ => none
  | Nat.succ fuel, s =>
    match skipWs s with
    | [] => none
    | c :: rest =>
      if c = lbrace then
        match skipWs rest with
        | [] => none
        | d :: rest2 =>
          if d = rbrace then some (JValue.obj [], rest2)
          else parseMembersLoop (parseValue fuel) (rest.length + 1) rest []
      else if c = '[' then
        match skipWs rest with
        | [] => none
        | d :: rest2 =>
          if d = ']' then some (JValue.arr [], rest2)
          else parseElemsLoop (parseValue fuel) (rest.length + 1) rest []
      else if c = '"' then (parseJString rest).map (fun pr => (JValue.str pr.1, pr.2))
      else if c = 't' then
        match rest with
        | 'r' :: 'u' :: 'e' :: r => some (JValue.bool true, r)
        | _ => none
      else if c = 'n' then
        match rest with
        | 'u' :: 'l' :: 'l' :: r => some (JValue.null, r)
        | _ => none
      else if c = 'f' then
        match rest with
        | 'a' :: 'l' :: 's' :: 'e' :: r => some (JValue.bool false, r)
        | _ => none
      else (parseJNumber (c :: rest)).map (fun pr => (JValue.num pr.1, pr.2))

/-- `json.loads`: the whole input must be a single JSON value, up to
surrounding whitespace; `none` models `json.JSONDecodeError`. -/
def json_loads (s : Str) : Option JValue :=
  match parseValue (s.length + 1) s with
  | some (v, rest) => if skipWs rest = [] then some v else none
  | none => none

/-- Python `s.find(c)`: first index of `c`, or `-1`. -/
def pyFind (s : Str) (c : Char) : Int :=
  match s with
  | [] => -1
  | a :: rest =>
    if a = c then 0
    else
      let r := pyFind rest c
      if r = -1 then -1 else r + 1

/-- Python `s.rfind(c)`: last index of `c`, or `-1`. -/
def pyRfind (s : Str) (c : Char) : Int :=
  match s with
  | [] => -1
  | a :: rest =>
    let r := pyRfind rest c
    if r = -1 then (if a = c then 0 else -1) else r + 1

/-- Python slice `s[a:b]` for `0 ≤ a ≤ b`. -/
def pySlice (s : Str) (a b : Int) : Str := (s.take b.toNat).drop a.toNat

/-- `LLMAnalyzer._parse_analysis(analysis_text, analysis_type)`
(src/api/llm_service.py lines 152-189): locate the span from the first
`{` to the last `}`, `json.loads` it, and tag the result with
`analysis_type`; on no-span or decode failure return the error dictionary.
A successful `json.loads` of a span that starts with `{` is necessarily an
object, so the decode-failure branch also absorbs that impossible case.
The `str(e)` detail of the `JSONDecodeError` message is abstracted to the
fixed prefix of the source's format string. -/
def _parse_analysis (analysis_text : Str) (analysis_type : Str) : List (Str × JValue) :=
  let start := pyFind analysis_text lbrace
  let e := pyRfind analysis_text rbrace + 1
  if start ≠ -1 ∧ e > start then
    match json_loads (pySlice analysis_text start e) with
    | some (JValue.obj kvs) => setKey kvs "analysis_type".data (JValue.str analysis_type)
    | _ =>
      [("error".data, JValue.str "Invalid JSON".data),
       ("raw_response".data, JValue.str analysis_text),
       ("analysis_type".data, JValue.str analysis_type)]
  else
    [("error".data, JValue.str "Could not parse JSON from response".data),
     ("raw_response".data, JValue.str analysis_text),
     ("analysis_type".data, JValue.str analysis_type)]

/-- `LLMAnalyzer.analyze_document(text, analysis_type)`
(src/api/llm_service.py lines 19-60).  `bedrock` is the outcome of the
`invoke_model` call plus response decoding: `Except.ok` carries the
response text `response_body['content'][0]['text']`, `Except.error` the
exception text.  Note the function never raises: every failure is turned
into an error dictionary. -/
def analyze_document (bedrock : Except Str Str) (analysis_type : Str) :
    List (Str × JValue) :=
  match bedrock with
  | Except.error e =>
    [("error".data, JValue.str ("Bedrock API error: ".data ++ e)),
     ("analysis_type".data, JValue.str analysis_type)]
  | Except.ok analysis_text => _parse_analysis analysis_text analysis_type

/-- One tier's entry in `PLAN_LIMITS` (src/api/index.py lines 106-125). -/
structure PlanLimit where
  documents : Nat
  pages : Nat
  filesize : Nat
  llm_analyses : Nat
deriving DecidableEq

/-- The `PLAN_LIMITS` dict; `none` models a `KeyError` on direct indexing
with an unknown tier. -/
def PLAN_LIMITS (tier : Str) : Option PlanLimit :=
  if tier = "free".data then some ⟨5, 3, 2 * 1024 * 1024, 2⟩
  else if tier = "pro".data then some ⟨200, 50, 5 * 1024 * 1024, 50⟩
  else if tier = "enterprise".data then some ⟨1000, 100, 50 * 1024 * 1024, 500⟩
  else none

/-- The quota-relevant columns of the `User` model (src/api/index.py lines
28-39).  `usage_reset_date` is a timestamp in days. -/
structure Account where
  tier : Str
  usage_reset_date : Int
  documents_processed_this_month : Nat
  llm_analyses_this_month : Nat
deriving DecidableEq

/-- The window-reset step at the top of the `check_usage_limit` decorator
(src/api/index.py lines 350-353): only for tiers other than `'pro'`, and
only when `usage_reset_date < now - 30 days` (strictly more than 30 days
old), reset the documents counter and restart the window.  The
`llm_analyses_this_month` counter is not touched here. -/
def usage_window_reset (u : Account) (now : Int) : Account :=
  if u.tier ≠ "pro".data ∧ u.usage_reset_date < now - 30 then
    { u with documents_processed_this_month := 0, usage_reset_date := now }
  else u

inductive AdmitDecision where
  | redirected
  | proceed
deriving DecidableEq

/-- The `check_usage_limit` decorator (src/api/index.py lines 347-362):
window reset, then `limit = PLAN_LIMITS[tier]['documents']` (a direct
index — `none` models the `KeyError` for an unknown tier), then redirect
without running the wrapped route when the counter has reached the limit. -/
def check_usage_limit (u : Account) (now : Int) : Option (AdmitDecision × Account) :=
  match PLAN_LIMITS (usage_window_reset u now).tier with
  | none => none
  | some pl =>
    if pl.documents ≤ (usage_window_reset u now).documents_processed_this_month then
      some (AdmitDecision.redirected, usage_window_reset u now)
    else some (AdmitDecision.proceed, usage_window_reset u now)

/-- `check_llm_quota(user)` (src/api/index.py lines 168-178): reset the
LLM counter when the window is strictly more than 30 days old (any tier),
then compare against `PLAN_LIMITS.get(tier, {}).get('llm_analyses', 0)` —
a defaulted lookup, so an unknown tier yields limit 0 instead of raising.
Returns the decision together with the (possibly reset) account. -/
def llm_window_reset (u : Account) (now : Int) : Account :=
  if u.usage_reset_date < now - 30 then
    { u with llm_analyses_this_month := 0, usage_reset_date := now }
  else u

def check_llm_quota (u : Account) (now : Int) : Bool × Account :=
  (decide ((llm_window_reset u now).llm_analyses_this_month <
     ((PLAN_LIMITS (llm_window_reset u now).tier).map PlanLimit.llm_analyses).getD 0),
   llm_window_reset u now)

inductive SubmitOutcome where
  | quotaExceeded
  | accepted
  | upstreamError
  | tierError
deriving DecidableEq

/-- Result of one `/upload` request: the outcome, the account afterwards,
and whether the S3 upload / Textract submission was attempted at all. -/
structure SubmitResult where
  outcome : SubmitOutcome
  account : Account
  upstreamCalled : Bool
deriving DecidableEq

/-- The `upload` route under its decorators (src/api/index.py lines
443-473): the `check_usage_limit` decorator either redirects (no S3 call,
no Textract call, no counter change) or lets the route run; the route
uploads, starts the Textract job and only then increments the documents
counter (`upstreamOk = false` models an exception from S3/Textract, which
leaves the counter unchanged). -/
def submit (u : Account) (now : Int) (upstreamOk : Bool) : SubmitResult :=
  match check_usage_limit u now with
  | none => ⟨SubmitOutcome.tierError, usage_window_reset u now, false⟩
  | some (AdmitDecision.redirected, u1) => ⟨SubmitOutcome.quotaExceeded, u1, false⟩
  | some (AdmitDecision.proceed, u1) =>
    if upstreamOk then
      ⟨SubmitOutcome.accepted,
       { u1 with documents_processed_this_month := u1.documents_processed_this_month + 1 },
       true⟩
    else ⟨SubmitOutcome.upstreamError, u1, true⟩

/-- A sequence of `/upload` requests: each event is the request time and
whether the upstream calls succeed. -/
def submitTrace (u : Account) (events : List (Int × Bool)) : Account :=
  events.foldl (fun acc ev => (submit acc ev.1 ev.2).account) u

/-- The documents counter is within the tier's limit (vacuous for a tier
with no `PLAN_LIMITS` entry). -/
def docsOkB (u : Account) : Bool :=
  match PLAN_LIMITS u.tier with
  | none => true
  | some pl => decide (u.documents_processed_this_month ≤ pl.documents)

/-- The JSON body returned by `/api/check_status/<job_id>`
(src/api/index.py lines 480-488). -/
structure StatusReport where
  status : Option Str
  error : Option Str
deriving DecidableEq

/-- `check_status` (src/api/index.py lines 482-488): on a successful probe
echo `response.get('JobStatus')`; on any exception return status
`'FAILED'` with the error text. -/
def check_status (probe : Except Str (Option Str)) : StatusReport :=
  match probe with
  | Except.ok s => ⟨s, none⟩
  | Except.error e => ⟨some "FAILED".data, some e⟩

/-- The enrichment block inside `process_result` (src/api/index.py lines
509-527), entered with quota available: `analyze_document` always returns
a dictionary (it never raises), which is uploaded as the JSON artifact and
followed by the counter increment.  `jsonUploadOk = false` models an
exception from `upload_json_to_s3` (or the import/text-join before it) —
caught by the inner `except`, leaving no artifact and no increment.
Returns the stored artifact (if any) and the new counter value. -/
def enrichment_step (bedrock : Except Str Str) (analysis_type : Str)
    (jsonUploadOk : Bool) (llmCount : Nat) :
    Option (List (Str × JValue)) × Nat :=
  let analysis_result := analyze_document bedrock analysis_type
  if jsonUploadOk then (some analysis_result, llmCount + 1)
  else (none, llmCount)

/-- The claim's notion of enrichment success: the upstream invocation
returned text from which a well-formed JSON object was parsed (first `{`
to last `}`). -/
def enrichment_succeeded (bedrock : Except Str Str) : Bool :=
  match bedrock with
  | Except.error _ => false
  | Except.ok t =>
    let start := pyFind t lbrace
    let e := pyRfind t rbrace + 1
    if start ≠ -1 ∧ e > start then
      match json_loads (pySlice t start e) with
      | some (JValue.obj _) => true
      | _ => false
    else false

/-- `os.path.splitext(s)[0]` for the filenames the service builds: the
part before the last dot (the whole name when there is no dot). -/
def splitextBase (s : Str) : Str :=
  let i := pyRfind s '.'
  if i = -1 then s else pySlice s 0 i

def create_csv_filename (original : Str) : Str :=
  splitextBase original ++ "_result.csv".data

def create_json_filename (original : Str) : Str :=
  splitextBase original ++ "_analysis.json".data

inductive ProcResponse where
  | errorPage (msg : Str)
  | redirectSuccess (csv_filename : Str) (json_filename : Option Str)
deriving DecidableEq

/-- Externally visible effects of one `process_result` request. -/
structure ProcEffects where
  csvStored : Option (List Nat)
  jsonStored : Option (List (Str × JValue))
  account : Account
  historyWritten : Bool

/-- Tail of `process_result`: `save_to_history` then the redirect to the
success page.  `historyOk = false` models a database exception there,
caught by the outer handler (the artifacts were already stored). -/
def proc_finish (csv_filename : Str) (csvBytes : List Nat)
    (jsonDict : Option (List (Str × JValue))) (json_filename : Option Str)
    (u : Account) (historyOk : Bool) : ProcResponse × ProcEffects :=
  if historyOk then
    (ProcResponse.redirectSuccess csv_filename json_filename,
     ⟨some csvBytes, jsonDict, u, true⟩)
  else
    (ProcResponse.errorPage "An error occurred during final processing".data,
     ⟨some csvBytes, jsonDict, u, false⟩)

/-- The `process_result` route (src/api/index.py lines 491-554).
`textractResponse` is the initial `get_document_text_detection` call
(`Except.error` = exception → outer handler); on `JobStatus == 'SUCCEEDED'`
it aggregates all pages, uploads the CSV (`csvUploadOk = false` models an
S3 exception → outer handler), then — only when the session enabled LLM
analysis, an analysis type is present and `check_llm_quota` grants it —
runs the enrichment block (whose failures are caught internally), and
finally writes history and redirects to the success page. -/
def process_result (textractResponse : Except Str (Option Str × Page))
    (fetch : Str → Page) (fuel : Nat) (csvUploadOk : Bool)
    (enable_llm : Bool) (analysis_type : Option Str)
    (u : Account) (now : Int)
    (bedrock : Except Str Str) (jsonUploadOk : Bool) (historyOk : Bool)
    (original_filename : Str) : ProcResponse × ProcEffects :=
  match textractResponse with
  | Except.error e => (ProcResponse.errorPage e, ⟨none, none, u, false⟩)
  | Except.ok (jobStatus, firstPage) =>
    if jobStatus = some "SUCCEEDED".data then
      match get_all_textract_blocks fetch firstPage fuel with
      | none => (ProcResponse.errorPage "pagination did not terminate".data,
                 ⟨none, none, u, false⟩)
      | some (blocks, _fetched) =>
        if csvUploadOk then
          let csv_filename := create_csv_filename original_filename
          let csvBytes := create_and_upload_csv blocks
          match enable_llm, analysis_type with
          | true, some atype =>
            let q := check_llm_quota u now
            if q.1 then
              let r := enrichment_step bedrock atype jsonUploadOk
                         q.2.llm_analyses_this_month
              let u2 := { q.2 with llm_analyses_this_month := r.2 }
              let jname := if jsonUploadOk then
                  some (create_json_filename original_filename) else none
              proc_finish csv_filename csvBytes r.1 jname u2 historyOk
            else proc_finish csv_filename csvBytes none none q.2 historyOk
          | _, _ => proc_finish csv_filename csvBytes none none u historyOk
        else (ProcResponse.errorPage "An error occurred during final processing".data,
              ⟨none, none, u, false⟩)
    else (ProcResponse.errorPage "Job did not succeed".data, ⟨none, none, u, false⟩)

/-- `true` iff the response is the redirect to the success page for the
given CSV artifact (any JSON artifact component). -/
def isSuccessRedirect (r : ProcResponse) (csv : Str) : Bool :=
  match r with
  | ProcResponse.redirectSuccess c _ => decide (c = csv)
  | ProcResponse.errorPage _ => false

/-- The spec's pagination scenario: three pages of blocks `[A],[B],[C]`
with cursors `c1 → c2 → None`. -/
def blockA : Block := ⟨"LINE".data, "A".data⟩

def blockB : Block := ⟨"LINE".data, "B".data⟩

def blockC : Block := ⟨"LINE".data, "C".data⟩

def pageTwo : Page := ⟨[blockB], some "c2".data⟩

def pageThree : Page := ⟨[blockC], none⟩

def scenarioFetch : Str → Page :=
  fun t =>
    if t = "c1".data then pageTwo
    else if t = "c2".data then pageThree
    else ⟨[], none⟩

def pageOne : Page := ⟨[blockA], some "c1".data⟩

/-- The spec's quota scenario account: tier FREE with
`documents_used = 5` inside a fresh window. -/
def freeAtLimit : Account := ⟨"free".data, 0, 5, 0⟩

/-- A fresh free-tier account. -/
def freshFree : Account := ⟨"free".data, 0, 0, 0⟩

/-- A pro-tier account whose window started 40 days before the probe. -/
def proStale : Account := ⟨"pro".data, 0, 3, 7⟩

/-- A free-tier account probed exactly 30 days after its window start. -/
def freeStaleEdge : Account := ⟨"free".data, 0, 5, 1⟩

/-- A free-tier account probed 40 days after its window start. -/
def freeStale : Account := ⟨"free".data, 0, 5, 9⟩

/-- An account with a tier absent from `PLAN_LIMITS`. -/
def goldenAccount : Account := ⟨"golden".data, 0, 0, 0⟩

/-- The spec's enrichment parsing scenario input. -/
def sampleResponse : Str := "Sure! \x7b\"summary\":\"x\"\x7d thanks".data

theorem get_blocks_loop_chain (fetch : Str → Page) (ps : List Page) :
    ∀ (nt : Option Str) (blocks : List Block) (fetched : List Str) (fuel : Nat),
      isChainB fetch nt ps = true → ps.length ≤ fuel →
      get_blocks_loop fetch nt blocks fetched fuel =
        some (blocks ++ (ps.map Page.blocks).flatten, fetched ++ chainTokens nt ps) := by
  induction ps with
  | nil =>
    intro nt blocks fetched fuel h _
    match nt with
    | none => simp [get_blocks_loop, chainTokens]
    | some [] => simp [get_blocks_loop, chainTokens]
    | some (c :: cs) => simp [isChainB, pyTruthy] at h
  | cons p ps ih =>
    intro nt blocks fetched fuel h hf
    match nt with
    | none => simp [isChainB] at h
    | some t =>
      simp only [isChainB, Bool.and_eq_true, decide_eq_true_eq] at h
      obtain ⟨⟨ht, hfp⟩, hrest⟩ := h
      cases t with
      | nil => exact absurd rfl ht
      | cons c cs =>
        cases fuel with
        | zero => simp at hf
        | succ fuel =>
          have hf' : ps.length ≤ fuel := by simp at hf; omega
          simp only [get_blocks_loop, hfp]
          rw [ih p.nextToken (blocks ++ p.blocks) (fetched ++ [c :: cs]) fuel hrest hf']
          simp [chainTokens]

/-- C1: for every finite cursor chain ending in an absent (or empty, which
the `while next_token:` test treats the same) token, `get_all_textract_blocks`
terminates within `fuel ≥ ` chain-length steps and returns the blocks of the
already-fetched first page followed by the blocks of the chained pages in
cursor order; the tokens fetched are exactly the chain's cursors (so the
first page, which corresponds to no cursor, is never re-fetched), and when
the initial response carries no `NextToken` the result is the first page's
blocks with no fetches at all. -/
theorem claim_C1_pagination (fetch : Str → Page) (initial : Page) (ps : List Page)
    (fuel : Nat) (hchain : isChainB fetch initial.nextToken ps = true)
    (hfuel : ps.length ≤ fuel) :
    get_all_textract_blocks fetch initial fuel =
      some (initial.blocks ++ (ps.map Page.blocks).flatten,
            chainTokens initial.nextToken ps) ∧
    (initial.nextToken = none →
      get_all_textract_blocks fetch initial fuel = some (initial.blocks, [])) := by
  constructor
  · simpa using get_blocks_loop_chain fetch ps initial.nextToken initial.blocks [] fuel
      hchain hfuel
  · intro hnone
    unfold get_all_textract_blocks
    rw [hnone]
    simp [get_blocks_loop]

theorem claim_C1_pagination_witness :
    isChainB scenarioFetch pageOne.nextToken [pageTwo, pageThree] = true ∧
    (2 : Nat) ≤ 2 ∧
    get_all_textract_blocks scenarioFetch pageOne 2 =
      some ([blockA, blockB, blockC], ["c1".data, "c2".data]) := by
  refine ⟨by decide, by decide, ?_⟩
  have h := claim_C1_pagination scenarioFetch pageOne [pageTwo, pageThree] 2
    (by decide) (by decide)
  exact h.1.trans (by decide)

theorem create_csv_fold (blocks : List Block) :
    ∀ acc : Str,
      blocks.foldl
        (fun acc b => if b.blockType = "LINE".data then acc ++ csvRow b.text else acc)
        acc =
      acc ++ ((blocks.filter (fun b => b.blockType = "LINE".data)).map
        (fun b => csvRow b.text)).flatten := by
  induction blocks with
  | nil => intro acc; simp
  | cons b bs ih =>
    intro acc
    by_cases hb : b.blockType = "LINE".data
    · simp [hb, ih, List.append_assoc]
    · simp [hb, ih]

/-- C7: `create_and_upload_csv` produces the UTF-8 encoding of the CSV
consisting of the header row `DetectedText` followed by one row per block
of type `LINE`, in input order, each carrying that block's text (with
Python's minimal CSV quoting); being a pure function of the ordered input,
running it twice yields byte-identical output. -/
theorem claim_C7_artifact (blocks : List Block) :
    create_and_upload_csv blocks = synthesize_artifact_spec blocks ∧
    create_and_upload_csv blocks = create_and_upload_csv blocks := by
  refine ⟨?_, rfl⟩
  unfold create_and_upload_csv synthesize_artifact_spec create_csv_string
  rw [create_csv_fold]

theorem dictFind_map_replace (k : Str) (v : JValue) :
    ∀ kvs : List (Str × JValue), kvs.any (fun kv => kv.1 = k) = true →
      dictFind (kvs.map (fun kv => if kv.1 = k then (k, v) else kv)) k = some v := by
  intro kvs
  induction kvs with
  | nil => intro h; simp at h
  | cons kv rest ih =>
    obtain ⟨k0, v0⟩ := kv
    intro h
    rw [List.map_cons]
    by_cases hk : k0 = k
    · have heq : (if (k0, v0).1 = k then (k, v) else (k0, v0)) = (k, v) := by
        rw [if_pos]; exact hk
      rw [heq, dictFind, if_pos rfl]
    · have heq : (if (k0, v0).1 = k then (k, v) else (k0, v0)) = (k0, v0) := by
        rw [if_neg]; exact hk
      rw [heq, dictFind, if_neg hk]
      apply ih
      rw [List.any_cons] at h
      cases hor : rest.any (fun kv => kv.1 = k) with
      | true => rfl
      | false =>
        exfalso
        rw [hor] at h
        simp at h
        exact hk h

theorem dictFind_append_new (k : Str) (v : JValue) :
    ∀ kvs : List (Str × JValue), kvs.any (fun kv => kv.1 = k) = false →
      dictFind (kvs ++ [(k, v)]) k = some v := by
  intro kvs
  induction kvs with
  | nil =>
    intro _
    rw [List.nil_append, dictFind, if_pos rfl]
  | cons kv rest ih =>
    obtain ⟨k0, v0⟩ := kv
    intro h
    rw [List.any_cons] at h
    have hk : ¬(k0 = k) := by
      intro hkk
      rw [hkk] at h
      simp at h
    have hrest : rest.any (fun kv => kv.1 = k) = false := by
      cases hor : rest.any (fun kv => kv.1 = k) with
      | false => rfl
      | true => rw [hor] at h; simp at h
    rw [List.cons_append, dictFind, if_neg hk]
    exact ih hrest

theorem dictFind_setKey (kvs : List (Str × JValue)) (k : Str) (v : JValue) :
    dictFind (setKey kvs k v) k = some v := by
  unfold setKey
  cases h : kvs.any (fun kv => kv.1 = k) with
  | true =>
    rw [if_pos rfl]
    exact dictFind_map_replace k v kvs h
  | false =>
    rw [if_neg Bool.false_ne_true]
    exact dictFind_append_new k v kvs h

/-- C8: parsing the enrichment response locates the span from the first
`{` to the last `}` and parses it, tolerating surrounding prose: on the
input `Sure! {"summary":"x"} thanks` and any profile `p`,
`_parse_analysis` returns exactly the dictionary
`{"summary": "x", "analysis_type": p}`. -/
theorem claim_C8_span_parse (p : Str) :
    _parse_analysis sampleResponse p =
      [("summary".data, JValue.str "x".data),
       ("analysis_type".data, JValue.str p)] := rfl

/-- C9: on every path of `_parse_analysis` — successful parse (the key is
written over whatever the parsed JSON carried), no JSON object found, and
JSON decode error — the returned dictionary maps `'analysis_type'` to
exactly the `analysis_type` argument. -/
theorem claim_C9_analysis_type (text atype : Str) :
    dictFind (_parse_analysis text atype) "analysis_type".data =
      some (JValue.str atype) := by
  have h1 : "error".data ≠ "analysis_type".data := by decide
  have h2 : "raw_response".data ≠ "analysis_type".data := by decide
  simp only [_parse_analysis]
  split
  · split
    · exact dictFind_setKey _ _ _
    · simp [dictFind, h1, h2]
  · simp [dictFind, h1, h2]

theorem usage_window_reset_tier (u : Account) (now : Int) :
    (usage_window_reset u now).tier = u.tier := by
  unfold usage_window_reset
  split <;> rfl

theorem usage_window_reset_docsOk (u : Account) (now : Int) (h : docsOkB u = true) :
    docsOkB (usage_window_reset u now) = true := by
  unfold usage_window_reset
  split
  · unfold docsOkB
    cases hpl : PLAN_LIMITS u.tier with
    | none => simp [hpl]
    | some pl => simp [hpl]
  · exact h

theorem submit_docsOk (u : Account) (now : Int) (ok : Bool) (h : docsOkB u = true) :
    docsOkB (submit u now ok).account = true := by
  have hres := usage_window_reset_docsOk u now h
  unfold submit check_usage_limit
  cases hpl : PLAN_LIMITS (usage_window_reset u now).tier with
  | none => simpa using hres
  | some pl =>
    by_cases hle : pl.documents ≤ (usage_window_reset u now).documents_processed_this_month
    · simpa [hle] using hres
    · cases ok with
      | false => simpa [hle] using hres
      | true =>
        simp only [hle, if_false, if_true]
        unfold docsOkB at hres ⊢
        rw [show ({ usage_window_reset u now with
              documents_processed_this_month :=
                (usage_window_reset u now).documents_processed_this_month + 1 } : Account).tier
            = (usage_window_reset u now).tier from rfl]
        rw [hpl]
        simp only [decide_eq_true_eq]
        omega

theorem submitTrace_docsOk (events : List (Int × Bool)) :
    ∀ u : Account, docsOkB u = true → docsOkB (submitTrace u events) = true := by
  induction events with
  | nil => intro u h; simpa [submitTrace] using h
  | cons ev evs ih =>
    intro u h
    have h1 := submit_docsOk u ev.1 ev.2 h
    simpa [submitTrace] using ih _ h1

/-- C2: starting from any account whose documents counter is within its
tier's limit (as every freshly created account is), no sequence of
`/upload` requests can push `documents_processed_this_month` past
`PLAN_LIMITS[tier]['documents']` at any observed point; and the spec's
scenario holds concretely: a free-tier account with the counter at 5 is
redirected with the quota message, its counter stays 5, and neither the S3
upload nor the Textract submission is attempted. -/
theorem claim_C2_quota (u : Account) (events : List (Int × Bool))
    (h : docsOkB u = true) :
    docsOkB (submitTrace u events) = true ∧
    submit freeAtLimit 0 true =
      ⟨SubmitOutcome.quotaExceeded, freeAtLimit, false⟩ :=
  ⟨submitTrace_docsOk events u h, by decide⟩

theorem claim_C2_quota_witness :
    docsOkB freshFree = true ∧
    (docsOkB (submitTrace freshFree [(0, true), (1, true), (2, false)]) = true ∧
     submit freeAtLimit 0 true =
       ⟨SubmitOutcome.quotaExceeded, freeAtLimit, false⟩) :=
  ⟨by decide, claim_C2_quota freshFree [(0, true), (1, true), (2, false)] (by decide)⟩

/-- C3 counterexample: the claim fails on the code in three concrete ways.
A pro-tier account whose window is 40 days old is not reset at all by the
admission path (the decorator skips `'pro'`); a free-tier account whose
window is exactly 30 days old is not reset either (the source condition is
strict: `usage_reset_date < now - 30 days`); and when the reset does fire
for a free-tier account it zeroes only the documents counter —
`llm_analyses_this_month` stays at 9, not 0. -/
theorem claim_C3_counterexample :
    ((40 : Int) - proStale.usage_reset_date ≥ 30 ∧
     check_usage_limit proStale 40 = some (AdmitDecision.proceed, proStale)) ∧
    ((30 : Int) - freeStaleEdge.usage_reset_date ≥ 30 ∧
     check_usage_limit freeStaleEdge 30 =
       some (AdmitDecision.redirected, freeStaleEdge)) ∧
    ((40 : Int) - freeStale.usage_reset_date ≥ 30 ∧
     check_usage_limit freeStale 40 =
       some (AdmitDecision.proceed, ⟨"free".data, 40, 0, 9⟩)) := by
  refine ⟨⟨by decide, by decide⟩, ⟨by decide, by decide⟩, ⟨by decide, by decide⟩⟩

/-- C3 amended: when the window is strictly more than 30 days old, the
admission path of submit resets only `documents_processed_this_month` (and
sets `usage_window_start` to now) and only for accounts whose tier is not
`'pro'`; `llm_analyses_this_month` is left untouched there and is instead
reset — for any tier, under the same strict condition — by the separate
`check_llm_quota` path. -/
theorem claim_C3_amended (u : Account) (now : Int)
    (hpro : u.tier ≠ "pro".data) (hexp : u.usage_reset_date < now - 30) :
    usage_window_reset u now =
      { u with documents_processed_this_month := 0, usage_reset_date := now } ∧
    (check_llm_quota u now).2 =
      { u with llm_analyses_this_month := 0, usage_reset_date := now } := by
  constructor
  · unfold usage_window_reset
    rw [if_pos ⟨hpro, hexp⟩]
  · simp [check_llm_quota, llm_window_reset, hexp]

theorem claim_C3_amended_witness :
    (freeStale.tier ≠ "pro".data ∧ freeStale.usage_reset_date < 40 - 30) ∧
    (usage_window_reset freeStale 40 =
       { freeStale with documents_processed_this_month := 0, usage_reset_date := 40 } ∧
     (check_llm_quota freeStale 40).2 =
       { freeStale with llm_analyses_this_month := 0, usage_reset_date := 40 }) :=
  ⟨⟨by decide, by decide⟩, claim_C3_amended freeStale 40 (by decide) (by decide)⟩

/-- C4 counterexample: on an enrichment failure (here a network error from
the Bedrock invocation) the artifact is still persisted and the counter
still incremented, because `analyze_document` returns an error dictionary
instead of raising — refuting the claimed "if and only if" at this input. -/
theorem claim_C4_counterexample :
    enrichment_succeeded (Except.error "Connection timeout".data) = false ∧
    (enrichment_step (Except.error "Connection timeout".data) "general".data
       true 4).1.isSome = true ∧
    (enrichment_step (Except.error "Connection timeout".data) "general".data
       true 4).2 = 5 :=
  ⟨rfl, rfl, rfl⟩

/-- C4 amended: the ENRICHMENT_JSON artifact is persisted and the counter
incremented if and only if the artifact upload itself raised no exception,
regardless of whether the enrichment succeeded: `analyze_document` never
raises, and on failure the persisted artifact is its error dictionary,
which carries the diagnostic reason under the `'error'` key. -/
theorem claim_C4_amended (bedrock : Except Str Str) (atype : Str)
    (jsonUploadOk : Bool) (c : Nat) :
    (enrichment_step bedrock atype jsonUploadOk c).1 =
      (if jsonUploadOk then some (analyze_document bedrock atype) else none) ∧
    (enrichment_step bedrock atype jsonUploadOk c).2 =
      (if jsonUploadOk then c + 1 else c) ∧
    dictFind (analyze_document (Except.error "network error".data) atype)
        "error".data =
      some (JValue.str ("Bedrock API error: ".data ++ "network error".data)) := by
  refine ⟨?_, ?_, rfl⟩ <;> cases jsonUploadOk <;> simp [enrichment_step]

/-- C5 counterexample: a failing status probe (here a timeout) is reported
with status `'FAILED'` — not as "still processing" — refuting the claim at
this input. -/
theorem claim_C5_counterexample :
    check_status (Except.error "Read timed out".data) =
      ⟨some "FAILED".data, some "Read timed out".data⟩ := rfl

/-- C5 amended: `check_status` reports a failing probe as status
`'FAILED'` together with the error text (the upstream job itself is not
modified — the route only reads), and echoes the upstream `JobStatus`
unchanged on a successful probe. -/
theorem claim_C5_amended (e : Str) (s : Option Str) :
    check_status (Except.error e) = ⟨some "FAILED".data, some e⟩ ∧
    check_status (Except.ok s) = ⟨s, none⟩ :=
  ⟨rfl, rfl⟩

/-- C10: for an account whose tier has no `PLAN_LIMITS` entry,
`check_llm_quota` is total — the defaulted lookup yields limit 0 and the
check returns `False` (enrichment denied) — whereas the document admission
check, which indexes `PLAN_LIMITS[tier]` directly, raises a `KeyError`
(modelled as `none`). -/
theorem claim_C10_unknown_tier (u : Account) (now : Int)
    (h : u.tier ≠ "free".data ∧ u.tier ≠ "pro".data ∧ u.tier ≠ "enterprise".data) :
    (check_llm_quota u now).1 = false ∧ check_usage_limit u now = none := by
  obtain ⟨h1, h2, h3⟩ := h
  have hpl : PLAN_LIMITS u.tier = none := by
    unfold PLAN_LIMITS
    rw [if_neg h1, if_neg h2, if_neg h3]
  constructor
  · by_cases hr : u.usage_reset_date < now - 30
    · simp [check_llm_quota, llm_window_reset, hr, hpl]
    · simp [check_llm_quota, llm_window_reset, hr, hpl]
  · unfold check_usage_limit
    rw [usage_window_reset_tier, hpl]

theorem claim_C10_unknown_tier_witness :
    (goldenAccount.tier ≠ "free".data ∧ goldenAccount.tier ≠ "pro".data ∧
     goldenAccount.tier ≠ "enterprise".data) ∧
    ((check_llm_quota goldenAccount 0).1 = false ∧
     check_usage_limit goldenAccount 0 = none) :=
  ⟨by decide, claim_C10_unknown_tier goldenAccount 0 (by decide)⟩

/-- C6: for a job observed as SUCCEEDED, whatever happens in the
enrichment step — Bedrock failing, the JSON upload raising, quota granted
or not — `process_result` still stores the TABULAR_TEXT (CSV) artifact
built from all aggregated blocks and still redirects to the success page
rather than returning an error. -/
theorem claim_C6_enrichment_nonfatal (fetch : Str → Page) (firstPage : Page)
    (ps : List Page) (fuel : Nat) (enable_llm : Bool)
    (analysis_type : Option Str) (u : Account) (now : Int)
    (bedrock : Except Str Str) (jsonUploadOk : Bool) (original : Str)
    (hchain : isChainB fetch firstPage.nextToken ps = true)
    (hfuel : ps.length ≤ fuel) :
    isSuccessRedirect
      (process_result (Except.ok (some "SUCCEEDED".data, firstPage)) fetch fuel
        true enable_llm analysis_type u now bedrock jsonUploadOk true original).1
      (create_csv_filename original) = true ∧
    (process_result (Except.ok (some "SUCCEEDED".data, firstPage)) fetch fuel
      true enable_llm analysis_type u now bedrock jsonUploadOk true original).2.csvStored =
      some (create_and_upload_csv
        (firstPage.blocks ++ (ps.map Page.blocks).flatten)) := by
  have hagg : get_all_textract_blocks fetch firstPage fuel =
      some (firstPage.blocks ++ (ps.map Page.blocks).flatten,
            chainTokens firstPage.nextToken ps) := by
    simpa using get_blocks_loop_chain fetch ps firstPage.nextToken firstPage.blocks
      [] fuel hchain hfuel
  cases enable_llm with
  | false => simp [process_result, hagg, proc_finish, isSuccessRedirect]
  | true =>
    cases analysis_type with
    | none => simp [process_result, hagg, proc_finish, isSuccessRedirect]
    | some atype =>
      by_cases hq : (check_llm_quota u now).1 = true
      · simp [process_result, hagg, hq, proc_finish, isSuccessRedirect]
      · simp [process_result, hagg, hq, proc_finish, isSuccessRedirect]

theorem claim_C6_enrichment_nonfatal_witness :
    (isChainB scenarioFetch pageOne.nextToken [pageTwo, pageThree] = true ∧
     ([pageTwo, pageThree].length ≤ 2)) ∧
    (isSuccessRedirect
       (process_result (Except.ok (some "SUCCEEDED".data, pageOne)) scenarioFetch 2
         true true (some "general".data) freshFree 0
         (Except.error "Bedrock unavailable".data) false true "doc.pdf".data).1
       (create_csv_filename "doc.pdf".data) = true ∧
     (process_result (Except.ok (some "SUCCEEDED".data, pageOne)) scenarioFetch 2
       true true (some "general".data) freshFree 0
       (Except.error "Bedrock unavailable".data) false true "doc.pdf".data).2.csvStored =
       some (create_and_upload_csv
         (pageOne.blocks ++ ([pageTwo, pageThree].map Page.blocks).flatten))) :=
  ⟨⟨by decide, by decide⟩,
   claim_C6_enrichment_nonfatal scenarioFetch pageOne [pageTwo, pageThree] 2 true
     (some "general".data) freshFree 0 (Except.error "Bedrock unavailable".data)
     false "doc.pdf".data (by decide) (by decide)⟩
